import Mathlib

/-!
Verification development for `src/vortex_ole_payload.py`
(SCTT-2026-33-0007, class `OLE_TemporalVortex`).

The Python source is embedded shallowly:

* `float` arithmetic (`np.exp`, `np.sin`, literals) is modelled over `ℝ`;
* Python `int(x)` (truncation toward zero) is `pyInt`;
* `struct.pack` field encoders are fallible (`Option`), returning `none`
  exactly when CPython raises `struct.error` (value out of range for the
  format code);
* `bytes`/`bytearray` values are `List ℕ` with each entry `< 256`
  (maintained by the `% 256` / `&&& 0xFF` operations of the source);
* `hashlib.sha256(b).hexdigest()` is modelled by recording `b`, the exact
  byte string handed to the hash, in the `checksum_source` field: every
  claim about the digest is a claim about which bytes are hashed;
* the wall clock (`time.time()`, `datetime.now()`) is an explicit
  parameter pair `(now_us, now_str)`; the source reads the clock several
  times per run and the successive instants are collapsed to one, which
  no behaviour of the byte/header pipeline distinguishes;
* `zipfile.ZipFile.writestr` is modelled as appending a named entry to a
  list, with an injectable failure oracle `writeErr` (the I/O failure
  modes of the archive writer); the `try:/except Exception:` of
  `build_sovereign_document` is the surrounding `match`.
-/

open Real

/-- Python `int()` applied to a float: truncation toward zero. -/
noncomputable def pyInt (x : ℝ) : ℤ :=
  if 0 ≤ x then ⌊x⌋ else -⌊-x⌋

/-- Encoder for one `struct.pack` format-code H field: two little-endian bytes, failing
(`struct.error`) outside `[0, 2^16)`. -/
def u16le (n : ℤ) : Option (List ℕ) :=
  if 0 ≤ n ∧ n < 65536 then
    some [n.toNat % 256, n.toNat / 256 % 256]
  else none

/-- Encoder for one `struct.pack` format-code I field: four little-endian bytes, failing
(`struct.error`) outside `[0, 2^32)`. -/
def u32le (n : ℤ) : Option (List ℕ) :=
  if 0 ≤ n ∧ n < 4294967296 then
    some [n.toNat % 256, n.toNat / 256 % 256, n.toNat / 65536 % 256,
      n.toNat / 16777216 % 256]
  else none

/-- Little-endian decoding of (up to) four bytes, used to state which
integer a 4-byte field of the packed header holds. -/
def leDecode32 (bs : List ℕ) : ℕ :=
  bs.getD 0 0 + 256 * bs.getD 1 0 + 65536 * bs.getD 2 0 + 16777216 * bs.getD 3 0

/-- The state built by `OLE_TemporalVortex.__init__`. -/
structure OLE_TemporalVortex where
  filename : String
  alpha : ℝ
  layers : ℕ
  cascade_factor : ℝ
  clsid_vortex : String
  prime_windows : List ℕ

/-- Constructor `OLE_TemporalVortex.__init__`: accepts only a filename and hardcodes
every other field; it has no validation and no failure path. -/
noncomputable def OLE_TemporalVortex.init (filename : String) : OLE_TemporalVortex :=
  { filename := filename
    alpha := 0.0302011
    layers := 33
    cascade_factor := (1 - Real.exp (-(0.0302011 : ℝ) * 33)) / 0.0302011
    clsid_vortex := "\x7bDEADC0DE-CAFE-BABE-0000-000000000033\x7d"
    prime_windows := [10007, 10009, 10037, 10039, 10061, 10067, 10069, 10079] }

/-- Method `calculate_ole_temporal_offset`: the only place the wall clock
(`now_us`, microseconds since the epoch) enters the computation. -/
noncomputable def calculate_ole_temporal_offset (v : OLE_TemporalVortex)
    (layer : ℕ) (now_us : ℕ) : ℝ :=
  let base_offset : ℝ := Real.exp (-v.alpha * layer)
  let base_offset : ℝ :=
    if 0 < layer then
      base_offset * (1 + v.alpha * Real.sin (2 * Real.pi * layer / v.layers))
    else base_offset
  let prime : ℕ := v.prime_windows.getD (layer % v.prime_windows.length) 0
  let prime_phase : ℝ := ((now_us % prime : ℕ) : ℝ) / (prime : ℝ)
  base_offset * (1e7 + 5e5 * prime_phase)

/-- Method `generate_vortex_ole_header`, lines 62-100 of the source.  The four
lines 94-97 carry C-style comment markers in the source (see the claim
about the syntax error); their intended reading, packing ten format-code I
fields, is embedded here.  Result is `none` when any `struct.pack` field
is out of range. -/
noncomputable def generate_vortex_ole_header (v : OLE_TemporalVortex)
    (layer : ℕ) : Option (List ℕ) := do
  let signature : List ℕ := [0xD0, 0xCF, 0x11, 0xE0, 0xA1, 0xB1, 0x1A, 0xE1]
  let clsid : List ℕ := [0x33, 0x00, 0x00, 0x00, 0xDE, 0xAD, 0xC0, 0xDE,
    0xCA, 0xFE, 0xBA, 0xBE, 0x00, 0x00, 0x00, 0x00]
  let w1 ← u16le 0x003E
  let w2 ← u16le 0x0003
  let w3 ← u16le 0xFFFE
  let w4 ← u16le 0x0009
  let total_sectors : ℤ := pyInt ((4096 : ℝ) * Real.exp (-v.alpha * layer))
  let d1 ← u32le total_sectors
  let d2 ← u32le 0
  let d3 ← u32le 0x0000
  let d4 ← u32le 0x1000
  let d5 ← u32le 0xFFFFFFFE
  let d6 ← u32le 0xFFFFFFFF
  let d7 ← u32le 0x00001000
  let d8 ← u32le (total_sectors / 2)
  let d9 ← u32le (layer : ℤ)
  let d10 ← u32le (pyInt (v.alpha * 1e6))
  return signature ++ clsid ++ w1 ++ w2 ++ w3 ++ w4 ++
    d1 ++ d2 ++ d3 ++ d4 ++ d5 ++ d6 ++ d7 ++ d8 ++ d9 ++ d10

/-- The body of the `for i in range(object_size)` loop of
`create_temporal_ole_object` (lines 132-149): given the buffer built so
far (`ole_data`, which starts as the header) and the loop index `i`,
produce the byte appended at this iteration. -/
noncomputable def vortex_data_byte (alpha : ℝ) (layer : ℕ)
    (ole_data : List ℕ) (i : ℕ) : ℕ :=
  -- computed but never used by the source (would raise ZeroDivisionError
  -- in Python when alpha = 0.0; over ℝ, 1/0 = 0 and `sin` is total)
  let _position_factor : ℝ := Real.sin (2 * Real.pi * (i : ℝ) / (1 / alpha))
  let energy : ℝ := Real.exp (-alpha * ((layer : ℝ) + (i : ℝ) / 100))
  let base_byte : ℕ := ((pyInt ((255 : ℝ) * energy)) % 256).toNat
  let base_byte : ℕ :=
    if 0 < i then (Nat.xor (ole_data.getD (i - 1) 0) base_byte) % 256
    else base_byte
  let pattern : ℕ := if (layer + i) % 2 = 0 then 0xAA else 0x55
  Nat.xor base_byte pattern

/-- A `for i in range(count)` loop that appends `F buf i` to the buffer at
each iteration, where `F` sees the buffer built so far.  Shared shape of
the data loop of `create_temporal_ole_object` and of the recurrence the
spec describes. -/
def appendLoop (F : List ℕ → ℕ → ℕ) : List ℕ → ℕ → ℕ → List ℕ
  | buf, _, 0 => buf
  | buf, i, count + 1 => appendLoop F (buf ++ [F buf i]) (i + 1) count

/-- The `metadata` dictionary returned by `create_temporal_ole_object`.
`checksum_source` records the byte string handed to `hashlib.sha256`. -/
structure OleMetadata where
  clsid : String
  progid : String
  size : ℕ
  temporal_offset : ℝ
  energy_level : ℝ
  layer : ℕ
  alpha : ℝ
  timestamp : String
  data : List ℕ
  checksum_source : List ℕ

/-- Method `create_temporal_ole_object`, lines 102-154.  Here `none` models an
uncaught `struct.error` escaping from the header generation. -/
noncomputable def create_temporal_ole_object (v : OLE_TemporalVortex)
    (layer : ℕ) (now_us : ℕ) (now_str : String) : Option OleMetadata := do
  let alphaMicro : ℤ := pyInt (v.alpha * 1e6)
  let progid : String :=
    "SCTT.Vortex.Layer" ++ toString layer ++ ".Alpha" ++ toString alphaMicro
  let base_size : ℕ := 1024
  let object_size : ℕ :=
    (pyInt ((base_size : ℝ) * Real.exp (-v.alpha * layer))).toNat
  let header ← generate_vortex_ole_header v layer
  let ole_data : List ℕ :=
    appendLoop (vortex_data_byte v.alpha layer) header 0 object_size
  return { clsid := v.clsid_vortex
           progid := progid
           size := object_size
           temporal_offset := calculate_ole_temporal_offset v layer now_us
           energy_level := Real.exp (-v.alpha * layer)
           layer := layer
           alpha := v.alpha
           timestamp := now_str
           data := ole_data
           checksum_source := ole_data }

/-- Modelled from the spec: the per-position byte rule of section 4.2,
in which the XOR feedback reads `output[p-1]`, the immediately preceding
synthesized output byte (the output buffer holds only synthesized bytes,
no header).  Used to compare the spec's recurrence with the source's. -/
noncomputable def spec_synthesize_byte (alpha : ℝ) (layer_index : ℕ)
    (output : List ℕ) (p : ℕ) : ℕ :=
  let decay : ℝ := Real.exp (-alpha * ((layer_index : ℝ) + (p : ℝ) / 100))
  let raw : ℕ := ((⌊(255 : ℝ) * decay⌋) % 256).toNat
  let raw : ℕ := if 0 < p then Nat.xor raw (output.getD (p - 1) 0) else raw
  let mask : ℕ := if (layer_index + p) % 2 = 0 then 0xAA else 0x55
  Nat.xor raw mask

/-- Modelled from the spec: `synthesize(layer_index, byte_count, alpha)`,
the full output sequence of the section 4.2 recurrence, starting from an
empty output buffer. -/
noncomputable def spec_synthesize (layer_index : ℕ) (byte_count : ℕ)
    (alpha : ℝ) : List ℕ :=
  appendLoop (spec_synthesize_byte alpha layer_index) [] 0 byte_count

/-- Rendering of one layer object's metadata as the XML fragment text of
`generate_vortex_xml` (lines 163-202).  The source's template text
carries no data beyond the metadata fields rendered into it, and no
claim depends on that text, so the rendered string is modelled as a
canonical concatenation of the fields it embeds. -/
def oleMetadata_xml (ole_object : OleMetadata) (layer : ℕ) : String :=
  "<oleObject progID=" ++ ole_object.progid ++ " clsid=" ++
    ole_object.clsid ++ " size=" ++ toString ole_object.size ++
    " temporalLayer=" ++ toString layer ++ "/>"

/-- The function `generate_vortex_xml` (lines 156-202) re-creates the
layer object for the layer and renders an XML document from its
metadata via `xml.etree.ElementTree` plus a fixed comment banner. -/
noncomputable def generate_vortex_xml (v : OLE_TemporalVortex) (layer : ℕ)
    (now_us : ℕ) (now_str : String) : Option String := do
  let ole_object ← create_temporal_ole_object v layer now_us now_str
  return oleMetadata_xml ole_object layer

/-- One entry written into the zip archive: `writestr` accepts either a
text part or a binary part. -/
inductive EntryContent
  | text (s : String)
  | binary (b : List ℕ)

/-- The `document_metadata` dictionary of `build_sovereign_document`
(the fields the claims touch; the fixed strings of the dictionary are
elided). -/
structure DocMetadata where
  filename : String
  alpha : ℝ
  layers : ℕ
  cascade_factor : ℝ
  ole_objects : List OleMetadata
  total_energy : ℝ
  efficiency : ℝ

/-- Outcome of `build_sovereign_document` as seen by its caller.
`raised` (an exception propagating out of the call) is included so that
the propagation behaviour described by the spec is statable; the
source's `try:/except Exception:` decides whether it ever occurs. -/
inductive BuildResult
  | completed (meta : DocMetadata) (archive : List (String × EntryContent))
  | errorDict (msg : String)
  | raised (msg : String)

/-- True exactly for a `BuildResult` that is an exception propagating to
the caller. -/
def BuildResult.isRaised : BuildResult → Bool
  | .raised _ => true
  | _ => false

/-- State threaded through the `for layer in range(self.layers)` loop of
`build_sovereign_document`. -/
structure LoopState where
  archive : List (String × EntryContent)
  ole_objects : List OleMetadata
  total_energy : ℝ

/-- Model of `zipfile.ZipFile.writestr`: appends a named entry, or raises (the
failure oracle `writeErr` names the entries whose write fails and the
exception text). -/
def zipWrite (writeErr : String → Option String)
    (archive : List (String × EntryContent)) (name : String)
    (content : EntryContent) : Except String (List (String × EntryContent)) :=
  match writeErr name with
  | some msg => .error msg
  | none => .ok (archive ++ [(name, content)])

/-- The fixed boilerplate parts written before the layer loop; their
literal XML text is a constant of the source with no computational
content, abbreviated here. -/
def content_types_xml : String := "<Types .../>"

/-- Constant `.rels` boilerplate (abbreviated, as above). -/
def relationships_xml : String := "<Relationships .../>"

/-- Output of `_generate_document_rels` (one relationship per layer;
abbreviated). -/
def document_rels_xml : String := "<Relationships rId100../>"

/-- Output of `_generate_document_xml` (abbreviated). -/
def document_xml_str : String := "<w:document .../>"

/-- Output of `_generate_vortex_manifest` (abbreviated text report). -/
def vortex_manifest_txt : String := "CTT_VORTEX_MANIFEST"

/-- Body of one iteration of the layer loop of
`build_sovereign_document` (lines 244-266): accumulate the layer energy,
create the layer object, append it to `ole_objects`, then write the XML
part and the binary part for this layer.  A `none` from object creation
is the `struct.error` escaping that iteration. -/
noncomputable def build_layer_step (v : OLE_TemporalVortex)
    (writeErr : String → Option String) (now_us : ℕ) (now_str : String)
    (st : LoopState) (layer : ℕ) : Except String LoopState :=
  let layer_energy : ℝ := Real.exp (-v.alpha * layer)
  match create_temporal_ole_object v layer now_us now_str with
  | none => .error "struct.error"
  | some ole_metadata =>
    match generate_vortex_xml v layer now_us now_str with
    | none => .error "struct.error"
    | some xml_content => do
      let archive ← zipWrite writeErr st.archive
        ("word/embeddings/oleObject" ++ toString layer ++ ".xml")
        (.text xml_content)
      let archive ← zipWrite writeErr archive
        ("word/embeddings/oleObject" ++ toString layer ++ ".bin")
        (.binary ole_metadata.data)
      .ok { archive := archive
            ole_objects := st.ole_objects ++ [ole_metadata]
            total_energy := st.total_energy + layer_energy }

/-- The layer loop itself, iterating `build_layer_step` left to right and
stopping at the first exception. -/
noncomputable def build_layers (v : OLE_TemporalVortex)
    (writeErr : String → Option String) (now_us : ℕ) (now_str : String)
    (st : LoopState) : List ℕ → Except String LoopState
  | [] => .ok st
  | l :: ls =>
    match build_layer_step v writeErr now_us now_str st l with
    | .error e => .error e
    | .ok st' => build_layers v writeErr now_us now_str st' ls

/-- Method `build_sovereign_document`, lines 204-294.  The whole body runs
inside `try: ... except Exception as e: return (a dictionary with an
error string)`, embedded as the final `match`: an `Except.error`
anywhere in the body becomes the `errorDict` return value. -/
noncomputable def build_sovereign_document (v : OLE_TemporalVortex)
    (writeErr : String → Option String) (now_us : ℕ) (now_str : String) :
    BuildResult :=
  let tryBody : Except String (DocMetadata × List (String × EntryContent)) := do
    let archive ← zipWrite writeErr [] "[Content_Types].xml"
      (.text content_types_xml)
    let archive ← zipWrite writeErr archive "_rels/.rels"
      (.text relationships_xml)
    let archive ← zipWrite writeErr archive "word/_rels/document.xml.rels"
      (.text document_rels_xml)
    let archive ← zipWrite writeErr archive "word/document.xml"
      (.text document_xml_str)
    let st ← build_layers v writeErr now_us now_str
      { archive := archive, ole_objects := [], total_energy := 0 }
      (List.range v.layers)
    let archive ← zipWrite writeErr st.archive "CTT_VORTEX_MANIFEST.txt"
      (.text vortex_manifest_txt)
    let theoretical_energy : ℝ := v.cascade_factor
    let efficiency : ℝ := st.total_energy / theoretical_energy * 100
    .ok ({ filename := v.filename
           alpha := v.alpha
           layers := v.layers
           cascade_factor := v.cascade_factor
           ole_objects := st.ole_objects
           total_energy := st.total_energy
           efficiency := efficiency }, archive)
  match tryBody with
  | .ok (meta, archive) => .completed meta archive
  | .error e => .errorDict e

/-- A failure-free archive writer: every `writestr` succeeds. -/
def noFail : String → Option String := fun _ => none

/-- The vortex instance built by the script's main block. -/
noncomputable def v0 : OLE_TemporalVortex :=
  OLE_TemporalVortex.init "SCTT_Sovereign_Physics_Manifest.docx"

/-! ### Structural lemmas about the append loop -/

theorem appendLoop_succ (F : List ℕ → ℕ → ℕ) (buf : List ℕ) (i n : ℕ) :
    appendLoop F buf i (n + 1) = appendLoop F (buf ++ [F buf i]) (i + 1) n := rfl

theorem appendLoop_length (F : List ℕ → ℕ → ℕ) :
    ∀ (n : ℕ) (buf : List ℕ) (i : ℕ),
      (appendLoop F buf i n).length = buf.length + n := by
  intro n
  induction n with
  | zero => intro buf i; rfl
  | succ m ih =>
    intro buf i
    rw [appendLoop_succ, ih]
    simp
    omega

theorem appendLoop_pref (F : List ℕ → ℕ → ℕ) :
    ∀ (n : ℕ) (buf : List ℕ) (i : ℕ), buf <+: appendLoop F buf i n := by
  intro n
  induction n with
  | zero => intro buf i; exact List.prefix_rfl
  | succ m ih =>
    intro buf i
    rw [appendLoop_succ]
    exact (List.prefix_append buf [F buf i]).trans (ih _ _)

theorem getD_of_pref {B C : List ℕ} (h : B <+: C) {k : ℕ} (hk : k < B.length) :
    C.getD k 0 = B.getD k 0 := by
  obtain ⟨t, rfl⟩ := h
  exact List.getD_append _ _ _ _ hk

/-- The byte at buffer offset `buf.length + j` of a finished append loop
is produced by the loop body applied to the buffer state after `j`
iterations, at loop index `i + j`. -/
theorem appendLoop_getD (F : List ℕ → ℕ → ℕ) :
    ∀ (j n : ℕ) (buf : List ℕ) (i : ℕ), j < n →
      (appendLoop F buf i n).getD (buf.length + j) 0 =
        F (appendLoop F buf i j) (i + j) := by
  intro j
  induction j with
  | zero =>
    intro n buf i hn
    obtain ⟨m, rfl⟩ : ∃ m, n = m + 1 := ⟨n - 1, by omega⟩
    rw [appendLoop_succ]
    have hpre := appendLoop_pref F m (buf ++ [F buf i]) (i + 1)
    rw [Nat.add_zero, getD_of_pref hpre (by simp)]
    simp [appendLoop]
  | succ k ih =>
    intro n buf i hn
    obtain ⟨m, rfl⟩ : ∃ m, n = m + 1 := ⟨n - 1, by omega⟩
    rw [appendLoop_succ]
    have hlen : buf.length + (k + 1) = (buf ++ [F buf i]).length + k := by
      simp
      omega
    rw [hlen, ih m _ (i + 1) (by omega), appendLoop_succ]
    congr 1
    omega

/-! ### Python `int()` and `struct.pack` field lemmas -/

theorem pyInt_of_nonneg {x : ℝ} (h : 0 ≤ x) : pyInt x = ⌊x⌋ := by
  simp [pyInt, h]

theorem pyInt_nonneg {x : ℝ} (h : 0 ≤ x) : 0 ≤ pyInt x := by
  rw [pyInt_of_nonneg h]
  exact Int.floor_nonneg.mpr h

/-- Total little-endian byte rendering of a 32-bit field (the bytes
`struct.pack '<I'` emits when the value is in range). -/
def u32bytes (n : ℤ) : List ℕ :=
  [n.toNat % 256, n.toNat / 256 % 256, n.toNat / 65536 % 256,
    n.toNat / 16777216 % 256]

theorem u16le_in_range {n : ℤ} (h0 : 0 ≤ n) (h1 : n < 65536) :
    u16le n = some [n.toNat % 256, n.toNat / 256 % 256] := by
  simp [u16le, h0, h1]

theorem u32le_in_range {n : ℤ} (h0 : 0 ≤ n) (h1 : n < 4294967296) :
    u32le n = some (u32bytes n) := by
  simp [u32le, u32bytes, h0, h1]

theorem u32bytes_length (n : ℤ) : (u32bytes n).length = 4 := rfl

theorem leDecode32_u32bytes {n : ℤ} (h0 : 0 ≤ n) (h1 : n < 4294967296) :
    leDecode32 (u32bytes n) = n.toNat := by
  have hlt : n.toNat < 4294967296 := by omega
  simp only [leDecode32, u32bytes, List.getD_cons_zero, List.getD_cons_succ]
  omega

/-! ### Header characterization -/

/-- The 72 bytes `generate_vortex_ole_header` emits when every
`struct.pack` field is in range, written field by field. -/
noncomputable def headerBytes (v : OLE_TemporalVortex) (layer : ℕ) : List ℕ :=
  let total_sectors : ℤ := pyInt ((4096 : ℝ) * Real.exp (-v.alpha * layer))
  [0xD0, 0xCF, 0x11, 0xE0, 0xA1, 0xB1, 0x1A, 0xE1] ++
  [0x33, 0, 0, 0, 0xDE, 0xAD, 0xC0, 0xDE, 0xCA, 0xFE, 0xBA, 0xBE, 0, 0, 0, 0] ++
  [0x3E, 0] ++ [0x03, 0] ++ [0xFE, 0xFF] ++ [0x09, 0] ++
  u32bytes total_sectors ++ u32bytes 0 ++ u32bytes 0 ++ u32bytes 0x1000 ++
  u32bytes 0xFFFFFFFE ++ u32bytes 0xFFFFFFFF ++ u32bytes 0x00001000 ++
  u32bytes (total_sectors / 2) ++ u32bytes (layer : ℤ) ++
  u32bytes (pyInt (v.alpha * 1e6))

theorem total_sectors_nonneg (v : OLE_TemporalVortex) (layer : ℕ) :
    0 ≤ pyInt ((4096 : ℝ) * Real.exp (-v.alpha * layer)) :=
  pyInt_nonneg (by positivity)

theorem total_sectors_le (v : OLE_TemporalVortex) (layer : ℕ)
    (h : 0 ≤ v.alpha * layer) :
    pyInt ((4096 : ℝ) * Real.exp (-v.alpha * layer)) ≤ 4096 := by
  rw [pyInt_of_nonneg (by positivity)]
  have h1 : Real.exp (-v.alpha * layer) ≤ 1 := by
    rw [Real.exp_le_one_iff, neg_mul]
    exact neg_nonpos.mpr h
  have h2 : (4096 : ℝ) * Real.exp (-v.alpha * layer) ≤ 4096 := by nlinarith
  calc ⌊(4096 : ℝ) * Real.exp (-v.alpha * layer)⌋ ≤ ⌊(4096 : ℝ)⌋ :=
        Int.floor_le_floor h2
    _ = 4096 := by norm_num

theorem generate_vortex_ole_header_eq (v : OLE_TemporalVortex) (layer : ℕ)
    (hts : pyInt ((4096 : ℝ) * Real.exp (-v.alpha * layer)) < 4294967296)
    (hl : (layer : ℤ) < 4294967296)
    (ha0 : 0 ≤ pyInt (v.alpha * 1e6)) (ha1 : pyInt (v.alpha * 1e6) < 4294967296) :
    generate_vortex_ole_header v layer = some (headerBytes v layer) := by
  have hts0 := total_sectors_nonneg v layer
  have hd0 : 0 ≤ pyInt ((4096 : ℝ) * Real.exp (-v.alpha * layer)) / 2 :=
    Int.ediv_nonneg hts0 (by norm_num)
  have hd1 : pyInt ((4096 : ℝ) * Real.exp (-v.alpha * layer)) / 2 < 4294967296 :=
    lt_of_le_of_lt (Int.ediv_le_self 2 hts0) hts
  have hl0 : (0 : ℤ) ≤ (layer : ℤ) := Int.natCast_nonneg layer
  unfold generate_vortex_ole_header headerBytes
  dsimp only
  rw [u16le_in_range (by norm_num) (by norm_num),
    u16le_in_range (by norm_num) (by norm_num),
    u16le_in_range (by norm_num) (by norm_num),
    u16le_in_range (by norm_num) (by norm_num),
    u32le_in_range hts0 hts,
    u32le_in_range (by norm_num) (by norm_num),
    u32le_in_range (by norm_num) (by norm_num),
    u32le_in_range (by norm_num) (by norm_num),
    u32le_in_range (by norm_num) (by norm_num),
    u32le_in_range hd0 hd1,
    u32le_in_range hl0 hl,
    u32le_in_range ha0 ha1]
  simp [u32bytes]

theorem headerBytes_length (v : OLE_TemporalVortex) (layer : ℕ) :
    (headerBytes v layer).length = 72 := by
  simp [headerBytes, u32bytes]

theorem pyInt_eq_of {x : ℝ} {z : ℤ} (h0 : 0 ≤ x) (h1 : (z : ℝ) ≤ x)
    (h2 : x < z + 1) : pyInt x = z := by
  rw [pyInt_of_nonneg h0]
  exact Int.floor_eq_iff.mpr ⟨h1, h2⟩

theorem headerBytes_field7 (v : OLE_TemporalVortex) (layer : ℕ) :
    ((headerBytes v layer).drop 32).take 4 =
      u32bytes (pyInt ((4096 : ℝ) * Real.exp (-v.alpha * layer))) := rfl

theorem headerBytes_field8 (v : OLE_TemporalVortex) (layer : ℕ) :
    ((headerBytes v layer).drop 60).take 4 =
      u32bytes (pyInt ((4096 : ℝ) * Real.exp (-v.alpha * layer)) / 2) := rfl

theorem headerBytes_head (v : OLE_TemporalVortex) (layer : ℕ) :
    (headerBytes v layer).getD 0 0 = 0xD0 := rfl

theorem v0_alpha : v0.alpha = 0.0302011 := rfl

theorem v0_layers : v0.layers = 33 := rfl

theorem pyInt_v0_alphaMicro : pyInt (v0.alpha * 1e6) = 30201 := by
  rw [v0_alpha]
  exact pyInt_eq_of (by norm_num) (by norm_num) (by norm_num)

theorem header_v0_eq (layer : ℕ) (hl : (layer : ℤ) < 4294967296) :
    generate_vortex_ole_header v0 layer = some (headerBytes v0 layer) := by
  apply generate_vortex_ole_header_eq
  · exact lt_of_le_of_lt
      (total_sectors_le v0 layer
        (mul_nonneg (by rw [v0_alpha]; norm_num) (Nat.cast_nonneg _)))
      (by norm_num)
  · exact hl
  · rw [pyInt_v0_alphaMicro]; norm_num
  · rw [pyInt_v0_alphaMicro]; norm_num

theorem create_temporal_ole_object_eq (v : OLE_TemporalVortex) (layer : ℕ)
    (now_us : ℕ) (now_str : String)
    (hh : generate_vortex_ole_header v layer = some (headerBytes v layer)) :
    create_temporal_ole_object v layer now_us now_str = some
      { clsid := v.clsid_vortex
        progid := "SCTT.Vortex.Layer" ++ toString layer ++ ".Alpha" ++
          toString (pyInt (v.alpha * 1e6))
        size := (pyInt ((1024 : ℝ) * Real.exp (-v.alpha * layer))).toNat
        temporal_offset := calculate_ole_temporal_offset v layer now_us
        energy_level := Real.exp (-v.alpha * layer)
        layer := layer
        alpha := v.alpha
        timestamp := now_str
        data := appendLoop (vortex_data_byte v.alpha layer) (headerBytes v layer)
          0 (pyInt ((1024 : ℝ) * Real.exp (-v.alpha * layer))).toNat
        checksum_source := appendLoop (vortex_data_byte v.alpha layer)
          (headerBytes v layer) 0
          (pyInt ((1024 : ℝ) * Real.exp (-v.alpha * layer))).toNat } := by
  unfold create_temporal_ole_object
  rw [hh]
  dsimp only
  norm_num

/-! ### Numeric bounds on the exponential at the constants of the run -/

theorem v0_size0 :
    (pyInt ((1024 : ℝ) * Real.exp (-v0.alpha * ((0 : ℕ) : ℝ)))).toNat = 1024 := by
  have h : -v0.alpha * ((0 : ℕ) : ℝ) = 0 := by norm_num
  have h2 : pyInt ((1024 : ℝ) * Real.exp (-v0.alpha * ((0 : ℕ) : ℝ))) = 1024 := by
    rw [h, Real.exp_zero, mul_one]
    exact pyInt_eq_of (by norm_num) (by norm_num) (by norm_num)
  rw [h2]
  rfl

/-- Four-term Taylor bounds for `exp (-0.1510055)` (that is,
`exp (-alpha * 5)` at the fixed decay constant), tight enough to pin
`floor (1024 * exp (-alpha * 5)) = 880`. -/
theorem exp_alpha5_bounds :
    (0.8597 : ℝ) ≤ Real.exp (-(0.1510055 : ℝ)) ∧
      Real.exp (-(0.1510055 : ℝ)) ≤ (0.8599 : ℝ) := by
  have hx : |(-(0.1510055 : ℝ))| ≤ 1 := by
    rw [abs_neg, abs_of_nonneg (by norm_num)]
    norm_num
  have hb := Real.exp_bound hx (n := 4) (by norm_num)
  rw [Finset.sum_range_succ, Finset.sum_range_succ, Finset.sum_range_succ,
    Finset.sum_range_succ, Finset.sum_range_zero, abs_neg,
    abs_of_nonneg (by norm_num : (0 : ℝ) ≤ 0.1510055)] at hb
  norm_num [Nat.factorial] at hb
  have h2 := abs_le.mp hb
  constructor
  · nlinarith [h2.1, h2.2]
  · nlinarith [h2.1, h2.2]

theorem exp_neg_small_bounds :
    (0.9992 : ℝ) ≤ Real.exp (-(0.000302011 : ℝ)) ∧
      Real.exp (-(0.000302011 : ℝ)) < 1 := by
  constructor
  · have h := Real.add_one_le_exp (-(0.000302011 : ℝ))
    linarith
  · rw [Real.exp_lt_one_iff]
    norm_num

/-! ### Concrete byte values at layer 0 -/

theorem vortex_data_byte_00 (buf : List ℕ) :
    vortex_data_byte v0.alpha 0 buf 0 = 85 := by
  have harg : -v0.alpha * (((0 : ℕ) : ℝ) + ((0 : ℕ) : ℝ) / 100) = 0 := by
    norm_num
  have hp : pyInt ((255 : ℝ) *
      Real.exp (-v0.alpha * (((0 : ℕ) : ℝ) + ((0 : ℕ) : ℝ) / 100))) = 255 := by
    rw [harg, Real.exp_zero, mul_one]
    exact pyInt_eq_of (by norm_num) (by norm_num) (by norm_num)
  simp only [vortex_data_byte]
  rw [hp]
  norm_num
  decide

theorem vortex_data_byte_01 (buf : List ℕ) (h0 : buf.getD 0 0 = 0xD0) :
    vortex_data_byte v0.alpha 0 buf 1 = 123 := by
  have harg : -v0.alpha * (((0 : ℕ) : ℝ) + ((1 : ℕ) : ℝ) / 100) =
      -(0.000302011 : ℝ) := by rw [v0_alpha]; norm_num
  have hb := exp_neg_small_bounds
  have hp : pyInt ((255 : ℝ) *
      Real.exp (-v0.alpha * (((0 : ℕ) : ℝ) + ((1 : ℕ) : ℝ) / 100))) = 254 := by
    rw [harg]
    refine pyInt_eq_of (by positivity) ?_ ?_
    · nlinarith [hb.1]
    · nlinarith [hb.2]
  simp only [vortex_data_byte]
  rw [hp, h0]
  norm_num
  decide

theorem spec_synthesize_byte_00 (buf : List ℕ) :
    spec_synthesize_byte v0.alpha 0 buf 0 = 85 := by
  have harg : -v0.alpha * (((0 : ℕ) : ℝ) + ((0 : ℕ) : ℝ) / 100) = 0 := by
    norm_num
  have hp : ⌊(255 : ℝ) *
      Real.exp (-v0.alpha * (((0 : ℕ) : ℝ) + ((0 : ℕ) : ℝ) / 100))⌋ = 255 := by
    rw [harg, Real.exp_zero, mul_one]
    exact Int.floor_eq_iff.mpr ⟨by norm_num, by norm_num⟩
  simp only [spec_synthesize_byte]
  rw [hp]
  norm_num
  decide

theorem spec_synthesize_byte_01 (buf : List ℕ) (h0 : buf.getD 0 0 = 85) :
    spec_synthesize_byte v0.alpha 0 buf 1 = 254 := by
  have harg : -v0.alpha * (((0 : ℕ) : ℝ) + ((1 : ℕ) : ℝ) / 100) =
      -(0.000302011 : ℝ) := by rw [v0_alpha]; norm_num
  have hb := exp_neg_small_bounds
  have hp : ⌊(255 : ℝ) *
      Real.exp (-v0.alpha * (((0 : ℕ) : ℝ) + ((1 : ℕ) : ℝ) / 100))⌋ = 254 := by
    rw [harg]
    refine Int.floor_eq_iff.mpr ⟨?_, ?_⟩
    · nlinarith [hb.1]
    · push_cast
      nlinarith [hb.2]
  simp only [spec_synthesize_byte]
  rw [hp, h0]
  norm_num
  decide

/-! ### Lexical model of source lines 87-98 (the `struct.pack` call with
C-style comment markers) -/

/-- Python tokens, restricted to the kinds occurring in lines 87-98 of
the source.  `name` covers identifiers and keywords; `numLit` and
`strLit` carry the literal text; `opFloorDiv` is the two-character
operator `//` (floor division), which in Python is exclusively an infix
binary operator.  Python comments start with `#`; the tokenizer never
treats `//` as a comment. -/
inductive PyTok
  | name (s : String)
  | numLit (s : String)
  | strLit (s : String)
  | comma
  | dot
  | lparen
  | rparen
  | opStar
  | opMinus
  | opFloorDiv

/-- Tokens that may legally follow a `,` inside a parenthesized argument
list in Python's grammar: the start of an expression (identifier,
keyword expression, literal, opening bracket, unary minus, `*`/`**`
splat) or the closing parenthesis (trailing comma).  The infix-only
operator `//` cannot: an argument cannot begin with a binary operator,
so `, //` is rejected by the parser with `SyntaxError`. -/
def canFollowComma : PyTok → Bool
  | .name _ => true
  | .numLit _ => true
  | .strLit _ => true
  | .lparen => true
  | .opStar => true
  | .opMinus => true
  | .rparen => true
  | _ => false

/-- Scans a token stream for a `,` followed by a token that cannot start
an argument; returns `false` at the first such pair.  A stream on which
this returns `false` cannot be parsed as (part of) a Python expression,
and a module containing it fails to compile: `import` raises
`SyntaxError` before any statement of the module executes. -/
def commaAdjacencyOk : List PyTok → Bool
  | [] => true
  | [_] => true
  | .comma :: t :: rest => canFollowComma t && commaAdjacencyOk (t :: rest)
  | _ :: t :: rest => commaAdjacencyOk (t :: rest)

/-- The token stream of lines 87-98 of `src/vortex_ole_payload.py`
(the header.extend struct.pack call), tokenized
per Python's lexer: `#` comments of lines 88-93 are stripped by the
lexer, but the `//` of lines 94-97 lexes as the floor-division operator
followed by ordinary identifier/number tokens. -/
def vortexPayloadPackCallToks : List PyTok :=
  [ -- line 87: header.extend struct.pack, format string, comma
   .name "header", .dot, .name "extend", .lparen,
   .name "struct", .dot, .name "pack", .lparen,
   .strLit "<IIIIIIIIII", .comma,
   -- line 88: total_sectors,
   .name "total_sectors", .comma,
   -- line 89: 0,
   .numLit "0", .comma,
   -- line 90: 0x0000,
   .numLit "0x0000", .comma,
   -- line 91: 0x1000,
   .numLit "0x1000", .comma,
   -- line 92: 0xFFFFFFFE,
   .numLit "0xFFFFFFFE", .comma,
   -- line 93: 0xFFFFFFFF,
   .numLit "0xFFFFFFFF", .comma,
   -- line 94: 0x00001000,                  ∕∕ Memory alignment
   .numLit "0x00001000", .comma, .opFloorDiv, .name "Memory",
   .name "alignment",
   -- line 95: total_sectors ∕∕ 2,      ∕∕ Half-life sectors (Theorem 4.2)
   .name "total_sectors", .opFloorDiv, .numLit "2", .comma, .opFloorDiv,
   .name "Half", .opMinus, .name "life", .name "sectors", .lparen,
   .name "Theorem", .numLit "4.2", .rparen,
   -- line 96: layer,                   ∕∕ Temporal layer encoded
   .name "layer", .comma, .opFloorDiv, .name "Temporal", .name "layer",
   .name "encoded",
   -- line 97: int(self.alpha * 1e6)    ∕∕ α in microform
   .name "int", .lparen, .name "self", .dot, .name "alpha", .opStar,
   .numLit "1e6", .rparen, .opFloorDiv, .name "α", .name "in",
   .name "microform",
   -- line 98: ))
   .rparen, .rparen]

/-! ### Characterization of the layer loop and the full build -/

/-- The two archive entries the layer loop writes for one layer whose
object creation succeeded. -/
noncomputable def layerEntries (v : OLE_TemporalVortex) (now_us : ℕ)
    (now_str : String) (l : ℕ) : List (String × EntryContent) :=
  match create_temporal_ole_object v l now_us now_str with
  | none => []
  | some m =>
    [("word/embeddings/oleObject" ++ toString l ++ ".xml",
       .text (oleMetadata_xml m l)),
     ("word/embeddings/oleObject" ++ toString l ++ ".bin", .binary m.data)]

/-- Sum of the per-layer decay energies accumulated by the loop. -/
noncomputable def energySum (v : OLE_TemporalVortex) (ls : List ℕ) : ℝ :=
  (ls.map (fun l : ℕ => Real.exp (-v.alpha * (l : ℝ)))).sum

theorem build_layer_step_noFail (v : OLE_TemporalVortex) (now_us : ℕ)
    (now_str : String) (st : LoopState) (l : ℕ) (m : OleMetadata)
    (hc : create_temporal_ole_object v l now_us now_str = some m) :
    build_layer_step v noFail now_us now_str st l = .ok
      { archive := st.archive ++ layerEntries v now_us now_str l
        ole_objects := st.ole_objects ++ [m]
        total_energy := st.total_energy + Real.exp (-v.alpha * l) } := by
  have h1 : build_layer_step v noFail now_us now_str st l = .ok
      { archive := (st.archive ++
          [("word/embeddings/oleObject" ++ toString l ++ ".xml",
             .text (oleMetadata_xml m l))]) ++
          [("word/embeddings/oleObject" ++ toString l ++ ".bin",
             .binary m.data)]
        ole_objects := st.ole_objects ++ [m]
        total_energy := st.total_energy + Real.exp (-v.alpha * l) } := by
    unfold build_layer_step generate_vortex_xml
    rw [hc]
    rfl
  rw [h1]
  simp [layerEntries, hc, List.append_assoc]

theorem build_layers_noFail (v : OLE_TemporalVortex) (now_us : ℕ)
    (now_str : String) :
    ∀ (ls : List ℕ) (st : LoopState),
      (∀ l ∈ ls, (create_temporal_ole_object v l now_us now_str).isSome) →
      build_layers v noFail now_us now_str st ls = .ok
        { archive := st.archive ++ ls.flatMap (layerEntries v now_us now_str)
          ole_objects := st.ole_objects ++
            ls.filterMap (fun l => create_temporal_ole_object v l now_us now_str)
          total_energy := st.total_energy + energySum v ls } := by
  intro ls
  induction ls with
  | nil => intro st _; simp [build_layers, energySum]
  | cons l ls ih =>
    intro st h
    obtain ⟨m, hm⟩ := Option.isSome_iff_exists.mp (h l (by simp))
    have hstep := build_layer_step_noFail v now_us now_str st l m hm
    simp only [build_layers, hstep]
    rw [ih _ (fun x hx => h x (by simp [hx]))]
    simp [List.flatMap_cons, List.filterMap_cons, hm, List.append_assoc,
      energySum, add_assoc]

/-- The four fixed parts written before the layer loop. -/
def fixedPreamble : List (String × EntryContent) :=
  [("[Content_Types].xml", .text content_types_xml),
   ("_rels/.rels", .text relationships_xml),
   ("word/_rels/document.xml.rels", .text document_rels_xml),
   ("word/document.xml", .text document_xml_str)]

theorem zipWrite_noFail_eq (ar : List (String × EntryContent)) (n : String)
    (c : EntryContent) : zipWrite noFail ar n c = .ok (ar ++ [(n, c)]) := rfl

theorem except_bind_ok {α β : Type} (a : α) (f : α → Except String β) :
    (Except.ok a >>= f) = f a := rfl

theorem build_sovereign_document_noFail (v : OLE_TemporalVortex)
    (now_us : ℕ) (now_str : String)
    (h : ∀ l ∈ List.range v.layers,
      (create_temporal_ole_object v l now_us now_str).isSome) :
    build_sovereign_document v noFail now_us now_str = .completed
      { filename := v.filename
        alpha := v.alpha
        layers := v.layers
        cascade_factor := v.cascade_factor
        ole_objects := (List.range v.layers).filterMap
          (fun l => create_temporal_ole_object v l now_us now_str)
        total_energy := 0 + energySum v (List.range v.layers)
        efficiency := (0 + energySum v (List.range v.layers)) /
          v.cascade_factor * 100 }
      (fixedPreamble ++
        (List.range v.layers).flatMap (layerEntries v now_us now_str) ++
        [("CTT_VORTEX_MANIFEST.txt", .text vortex_manifest_txt)]) := by
  have hloop := build_layers_noFail v now_us now_str (List.range v.layers)
    { archive := fixedPreamble, ole_objects := [], total_energy := 0 } h
  dsimp only at hloop
  unfold build_sovereign_document
  simp only [zipWrite_noFail_eq, except_bind_ok, List.nil_append,
    List.singleton_append, List.cons_append, fixedPreamble] at hloop ⊢
  rw [hloop]
  simp only [except_bind_ok, zipWrite_noFail_eq]
  simp [List.append_assoc, fixedPreamble]

/-! ### Further helper lemmas -/

theorem appendLoop_add (F : List ℕ → ℕ → ℕ) :
    ∀ (a : ℕ) (b : ℕ) (buf : List ℕ) (i : ℕ),
      appendLoop F buf i (a + b) =
        appendLoop F (appendLoop F buf i a) (i + a) b := by
  intro a
  induction a with
  | zero => intro b buf i; simp [appendLoop]
  | succ k ih =>
    intro b buf i
    have h1 : k + 1 + b = (k + b) + 1 := by omega
    rw [h1, appendLoop_succ, ih, appendLoop_succ]
    congr 1
    omega

theorem create_v0_isSome (l : ℕ) (hl : (l : ℤ) < 4294967296) (t : ℕ)
    (s : String) : (create_temporal_ole_object v0 l t s).isSome := by
  rw [create_temporal_ole_object_eq v0 l t s (header_v0_eq l hl)]
  rfl

theorem v0_data0_72 :
    (appendLoop (vortex_data_byte v0.alpha 0) (headerBytes v0 0) 0
      1024).getD 72 0 = 85 := by
  have h72 : (72 : ℕ) = (headerBytes v0 0).length + 0 := by
    rw [headerBytes_length]
  rw [h72, appendLoop_getD (vortex_data_byte v0.alpha 0) 0 1024
    (headerBytes v0 0) 0 (by norm_num)]
  exact vortex_data_byte_00 _

theorem v0_data0_73 :
    (appendLoop (vortex_data_byte v0.alpha 0) (headerBytes v0 0) 0
      1024).getD 73 0 = 123 := by
  have h73 : (73 : ℕ) = (headerBytes v0 0).length + 1 := by
    rw [headerBytes_length]
  rw [h73, appendLoop_getD (vortex_data_byte v0.alpha 0) 1 1024
    (headerBytes v0 0) 0 (by norm_num)]
  have hbuf : appendLoop (vortex_data_byte v0.alpha 0) (headerBytes v0 0) 0 1 =
      headerBytes v0 0 ++ [vortex_data_byte v0.alpha 0 (headerBytes v0 0) 0] :=
    rfl
  rw [hbuf]
  apply vortex_data_byte_01
  rw [List.getD_append _ _ _ _ (by rw [headerBytes_length]; norm_num)]
  exact headerBytes_head v0 0

theorem spec_synthesize_getD_1 :
    (spec_synthesize 0 1024 v0.alpha).getD 1 0 = 254 := by
  unfold spec_synthesize
  have h1 : (1 : ℕ) = ([] : List ℕ).length + 1 := rfl
  rw [h1, appendLoop_getD (spec_synthesize_byte v0.alpha 0) 1 1024 [] 0
    (by norm_num)]
  have hbuf : appendLoop (spec_synthesize_byte v0.alpha 0) [] 0 1 =
      [spec_synthesize_byte v0.alpha 0 [] 0] := rfl
  rw [hbuf]
  apply spec_synthesize_byte_01
  rw [show [spec_synthesize_byte v0.alpha 0 [] 0].getD 0 0 =
    spec_synthesize_byte v0.alpha 0 [] 0 from rfl]
  exact spec_synthesize_byte_00 []

theorem spec_synthesize_length (layer_index byte_count : ℕ) (alpha : ℝ) :
    (spec_synthesize layer_index byte_count alpha).length = byte_count := by
  unfold spec_synthesize
  rw [appendLoop_length]
  simp

theorem layerEntries_length_of_isSome (v : OLE_TemporalVortex) (t : ℕ)
    (s : String) (l : ℕ)
    (h : (create_temporal_ole_object v l t s).isSome) :
    (layerEntries v t s l).length = 2 := by
  obtain ⟨m, hm⟩ := Option.isSome_iff_exists.mp h
  simp [layerEntries, hm]

theorem flatMap_layerEntries_length (v : OLE_TemporalVortex) (t : ℕ)
    (s : String) :
    ∀ (n k : ℕ),
      (∀ l ∈ List.range' k n, (create_temporal_ole_object v l t s).isSome) →
      ((List.range' k n).flatMap (layerEntries v t s)).length = 2 * n := by
  intro n
  induction n with
  | zero => intro k _; rfl
  | succ m ih =>
    intro k h
    rw [List.range'_succ, List.flatMap_cons, List.length_append,
      layerEntries_length_of_isSome v t s k (h k (by simp [List.range'_succ])),
      ih (k + 1) (fun l hl => h l (by simp [List.range'_succ, hl]))]
    omega

theorem flatMap_layerEntries_getElem (v : OLE_TemporalVortex) (t : ℕ)
    (s : String) :
    ∀ (n j k : ℕ),
      (∀ l ∈ List.range' k n, (create_temporal_ole_object v l t s).isSome) →
      j < n →
      ((List.range' k n).flatMap (layerEntries v t s))[2 * j + 1]? =
        (layerEntries v t s (k + j))[1]? := by
  intro n
  induction n with
  | zero => intro j k _ hj; omega
  | succ m ih =>
    intro j k h hj
    rw [List.range'_succ, List.flatMap_cons]
    have hlen : (layerEntries v t s k).length = 2 :=
      layerEntries_length_of_isSome v t s k (h k (by simp [List.range'_succ]))
    match j with
    | 0 =>
      rw [List.getElem?_append, if_pos (by omega)]
      simp
    | j + 1 =>
      rw [List.getElem?_append_right (by omega)]
      have harith : 2 * (j + 1) + 1 - (layerEntries v t s k).length =
          2 * j + 1 := by omega
      rw [harith, show k + (j + 1) = k + 1 + j from by omega]
      exact ih j (k + 1)
        (fun l hl => h l (by simp [List.range'_succ, hl])) (by omega)

/-- Whatever happens inside the build, the `try:/except Exception:` of
`build_sovereign_document` turns it into a normal return value: the
build never lets an exception propagate to its caller. -/
theorem build_sovereign_document_never_raised (v : OLE_TemporalVortex)
    (writeErr : String → Option String) (t : ℕ) (s : String) :
    (build_sovereign_document v writeErr t s).isRaised = false := by
  unfold build_sovereign_document
  dsimp only
  split
  · rfl
  · rfl

/-- The state of the source mutated to a negative decay constant — the
kind of configuration the spec's ConfigurationError is about. -/
noncomputable def vNeg : OLE_TemporalVortex :=
  { OLE_TemporalVortex.init "SCTT_Sovereign_Physics_Manifest.docx" with
    alpha := -1 }

theorem header_vNeg_0 : generate_vortex_ole_header vNeg 0 = none := by
  have hz : -vNeg.alpha * ((0 : ℕ) : ℝ) = 0 := by norm_num
  have hts : pyInt ((4096 : ℝ) * Real.exp (-vNeg.alpha * ((0 : ℕ) : ℝ))) =
      4096 := by
    rw [hz, Real.exp_zero, mul_one]
    exact pyInt_eq_of (by norm_num) (by norm_num) (by norm_num)
  have hneg : pyInt (vNeg.alpha * 1e6) = -1000000 := by
    have hx : vNeg.alpha * 1e6 = -(1000000 : ℝ) := by
      rw [show vNeg.alpha = -1 from rfl]
      norm_num
    rw [hx, pyInt, if_neg (by norm_num), neg_neg,
      show ⌊(1000000 : ℝ)⌋ = 1000000 from
        Int.floor_eq_iff.mpr ⟨by norm_num, by norm_num⟩]
  unfold generate_vortex_ole_header
  dsimp only
  rw [hts, hneg]
  simp [u16le, u32le, Option.bind]

theorem create_vNeg_none (t : ℕ) (s : String) :
    create_temporal_ole_object vNeg 0 t s = none := by
  unfold create_temporal_ole_object
  rw [header_vNeg_0]
  rfl

theorem build_layer_step_vNeg (t : ℕ) (s : String) (st : LoopState) :
    build_layer_step vNeg noFail t s st 0 = .error "struct.error" := by
  unfold build_layer_step
  rw [create_vNeg_none]

theorem build_vNeg_errorDict (t : ℕ) (s : String) :
    build_sovereign_document vNeg noFail t s = .errorDict "struct.error" := by
  unfold build_sovereign_document
  dsimp only
  simp only [zipWrite_noFail_eq, except_bind_ok]
  rw [show List.range vNeg.layers = 0 :: List.range' 1 32 from by
    rw [show vNeg.layers = 33 from rfl, List.range_eq_range']
    rfl]
  simp only [build_layers, build_layer_step_vNeg]
  rfl

/-- An archive writer whose very first write (the content-types part)
raises an exception carrying `msg`. -/
def failFirstWrite (msg : String) : String → Option String :=
  fun name => if name = "[Content_Types].xml" then some msg else none

theorem build_failFirstWrite (v : OLE_TemporalVortex) (t : ℕ) (s : String)
    (msg : String) :
    build_sovereign_document v (failFirstWrite msg) t s = .errorDict msg := by
  unfold build_sovereign_document
  dsimp only
  rw [show zipWrite (failFirstWrite msg) [] "[Content_Types].xml"
      (.text content_types_xml) = .error msg from by
    unfold zipWrite failFirstWrite
    rw [if_pos rfl]]
  rfl

theorem v0_size5 :
    (pyInt ((1024 : ℝ) * Real.exp (-v0.alpha * ((5 : ℕ) : ℝ)))).toNat = 880 := by
  have harg : -v0.alpha * ((5 : ℕ) : ℝ) = -(0.1510055 : ℝ) := by
    rw [v0_alpha]
    norm_num
  have hb := exp_alpha5_bounds
  have h : pyInt ((1024 : ℝ) * Real.exp (-v0.alpha * ((5 : ℕ) : ℝ))) = 880 := by
    rw [harg]
    refine pyInt_eq_of (by positivity) ?_ ?_
    · nlinarith [hb.1]
    · push_cast
      nlinarith [hb.2]
  rw [h]
  rfl

/-- The layer object built by `create_temporal_ole_object` at layer 0
with clock instant 0 and timestamp string "t". -/
noncomputable def m00 : OleMetadata :=
  { clsid := v0.clsid_vortex
    progid := "SCTT.Vortex.Layer" ++ toString (0 : ℕ) ++ ".Alpha" ++
      toString (pyInt (v0.alpha * 1e6))
    size := (pyInt ((1024 : ℝ) * Real.exp (-v0.alpha * ((0 : ℕ) : ℝ)))).toNat
    temporal_offset := calculate_ole_temporal_offset v0 0 0
    energy_level := Real.exp (-v0.alpha * ((0 : ℕ) : ℝ))
    layer := 0
    alpha := v0.alpha
    timestamp := "t"
    data := appendLoop (vortex_data_byte v0.alpha 0) (headerBytes v0 0) 0
      (pyInt ((1024 : ℝ) * Real.exp (-v0.alpha * ((0 : ℕ) : ℝ)))).toNat
    checksum_source := appendLoop (vortex_data_byte v0.alpha 0)
      (headerBytes v0 0) 0
      (pyInt ((1024 : ℝ) * Real.exp (-v0.alpha * ((0 : ℕ) : ℝ)))).toNat }

theorem create_v0_0_eq :
    create_temporal_ole_object v0 0 0 "t" = some m00 := by
  rw [create_temporal_ole_object_eq v0 0 0 "t" (header_v0_eq 0 (by norm_num))]
  rfl

theorem m00_size : m00.size = 1024 := v0_size0

theorem m00_data_count :
    m00.data = appendLoop (vortex_data_byte v0.alpha 0) (headerBytes v0 0) 0
      1024 := by
  show appendLoop (vortex_data_byte v0.alpha 0) (headerBytes v0 0) 0
      (pyInt ((1024 : ℝ) * Real.exp (-v0.alpha * ((0 : ℕ) : ℝ)))).toNat = _
  rw [v0_size0]

theorem m00_data_length : m00.data.length = 1096 := by
  rw [m00_data_count, appendLoop_length, headerBytes_length]

/-! ### The claims -/

/-- Claim C2: the source file is not a valid Python program.  In the
`struct.pack` argument list of lines 87-98, the token following the
comma of line 94 is `//`, the floor-division operator, which is
exclusively infix in Python's grammar and cannot begin an argument (the
lines use C-style `//` comment markers; Python comments start with `#`).
CPython therefore rejects the file with `SyntaxError` at compile time:
the module cannot be imported, and no operation of the module can
execute. -/
theorem C2_syntax_error :
    vortexPayloadPackCallToks[23]? = some PyTok.comma ∧
    vortexPayloadPackCallToks[24]? = some PyTok.opFloorDiv ∧
    canFollowComma PyTok.opFloorDiv = false ∧
    commaAdjacencyOk vortexPayloadPackCallToks = false :=
  ⟨rfl, rfl, rfl, rfl⟩

/-- Claim C3 counterexample: the header is 72 bytes (8-byte signature +
16-byte identifier + 4 two-byte fields + 10 four-byte fields), not the
44 bytes the claim states.  At layer 0 the encoder succeeds and returns
a byte string of length 72 ≠ 44. -/
theorem C3_counterexample :
    generate_vortex_ole_header v0 0 = some (headerBytes v0 0) ∧
    (headerBytes v0 0).length = 72 ∧ (72 : ℕ) ≠ 44 :=
  ⟨header_v0_eq 0 (by norm_num), headerBytes_length v0 0, by norm_num⟩

/-- Claim C3 (amended): whenever every `struct.pack` field is in range
(in particular for the fixed `alpha = 0.0302011` of the run), the header
encoder returns exactly 72 bytes — 8-byte signature, 16-byte identifier,
four 16-bit fields, ten 32-bit little-endian fields — in which the first
32-bit field holds `total_sectors = floor(4096 * exp(-alpha *
layer_index))` and the eighth 32-bit field holds `total_sectors // 2`
(`leDecode32` is little-endian decoding, so these equalities also state
the fields' byte order). -/
theorem C3_amended (v : OLE_TemporalVortex) (layer : ℕ)
    (hts : pyInt ((4096 : ℝ) * Real.exp (-v.alpha * layer)) < 4294967296)
    (hl : (layer : ℤ) < 4294967296)
    (ha0 : 0 ≤ pyInt (v.alpha * 1e6)) (ha1 : pyInt (v.alpha * 1e6) < 4294967296) :
    ∃ bs, generate_vortex_ole_header v layer = some bs ∧
      bs.length = 72 ∧
      leDecode32 ((bs.drop 32).take 4) =
        (⌊(4096 : ℝ) * Real.exp (-v.alpha * layer)⌋).toNat ∧
      leDecode32 ((bs.drop 60).take 4) =
        leDecode32 ((bs.drop 32).take 4) / 2 := by
  have hts0 := total_sectors_nonneg v layer
  refine ⟨headerBytes v layer,
    generate_vortex_ole_header_eq v layer hts hl ha0 ha1,
    headerBytes_length v layer, ?_, ?_⟩
  · rw [headerBytes_field7, leDecode32_u32bytes hts0 hts,
      pyInt_of_nonneg (by positivity)]
  · rw [headerBytes_field7, headerBytes_field8,
      leDecode32_u32bytes (Int.ediv_nonneg hts0 (by norm_num))
        (lt_of_le_of_lt (Int.ediv_le_self 2 hts0) hts),
      leDecode32_u32bytes hts0 hts]
    omega

/-- Witness for the amended C3 at the run's own constants
(`v0`, layer 0): the hypotheses hold there and the conclusion follows by
applying the theorem. -/
theorem C3_amended_witness :
    pyInt ((4096 : ℝ) * Real.exp (-v0.alpha * ((0 : ℕ) : ℝ))) < 4294967296 ∧
    ((0 : ℕ) : ℤ) < 4294967296 ∧
    0 ≤ pyInt (v0.alpha * 1e6) ∧ pyInt (v0.alpha * 1e6) < 4294967296 ∧
    (∃ bs, generate_vortex_ole_header v0 0 = some bs ∧
      bs.length = 72 ∧
      leDecode32 ((bs.drop 32).take 4) =
        (⌊(4096 : ℝ) * Real.exp (-v0.alpha * ((0 : ℕ) : ℝ))⌋).toNat ∧
      leDecode32 ((bs.drop 60).take 4) =
        leDecode32 ((bs.drop 32).take 4) / 2) := by
  have hts : pyInt ((4096 : ℝ) * Real.exp (-v0.alpha * ((0 : ℕ) : ℝ))) <
      4294967296 :=
    lt_of_le_of_lt
      (total_sectors_le v0 0
        (mul_nonneg (by rw [v0_alpha]; norm_num) (Nat.cast_nonneg _)))
      (by norm_num)
  have ha0 : 0 ≤ pyInt (v0.alpha * 1e6) := by rw [pyInt_v0_alphaMicro]; norm_num
  have ha1 : pyInt (v0.alpha * 1e6) < 4294967296 := by
    rw [pyInt_v0_alphaMicro]; norm_num
  exact ⟨hts, by norm_num, ha0, ha1,
    C3_amended v0 0 hts (by norm_num) ha0 ha1⟩

/-- Claim C6 counterexample: a state whose `alpha` is negative (here
`alpha = -1`, in the claim's domain `alpha < 0`) does not make the run
raise a ConfigurationError — no such exception class or validation
exists in the source.  The run enters layer processing, the header
packing of layer 0 fails on the negative `int(alpha * 1e6)` field, and
the `except Exception` handler converts that into an error-dictionary
return value; nothing is raised to the caller. -/
theorem C6_counterexample :
    vNeg.alpha < 0 ∧
    (build_sovereign_document vNeg noFail 0 "t").isRaised = false ∧
    build_sovereign_document vNeg noFail 0 "t" =
      BuildResult.errorDict "struct.error" := by
  refine ⟨?_, ?_, build_vNeg_errorDict 0 "t"⟩
  · rw [show vNeg.alpha = -1 from rfl]
    norm_num
  · exact build_sovereign_document_never_raised vNeg noFail 0 "t"

/-- Claim C6 (amended): the source performs no configuration validation
and defines no ConfigurationError.  The constructor accepts only a
filename and always succeeds, hardcoding `alpha = 0.0302011 > 0`,
`layers = 33`, and a non-empty prime set, so no rejection is possible or
needed before layer processing; and no run of the build ever raises an
exception to its caller — every failure surfaces as an error-dictionary
return value. -/
theorem C6_amended :
    (∀ f : String,
      (OLE_TemporalVortex.init f).alpha = 0.0302011 ∧
      0 < (OLE_TemporalVortex.init f).alpha ∧
      (OLE_TemporalVortex.init f).layers = 33 ∧
      (OLE_TemporalVortex.init f).prime_windows ≠ []) ∧
    (∀ (v : OLE_TemporalVortex) (w : String → Option String) (t : ℕ)
      (s : String), (build_sovereign_document v w t s).isRaised = false) := by
  constructor
  · intro f
    refine ⟨rfl, by norm_num [OLE_TemporalVortex.init], rfl, by simp [OLE_TemporalVortex.init]⟩
  · intro v w t s
    exact build_sovereign_document_never_raised v w t s

/-- Claim C7 counterexample: an archive-write failure (the first
`writestr` raising with message "disk full") does not propagate to the
caller of `build_sovereign_document`: the `try:/except Exception:`
catches it and the call returns the dictionary-style `errorDict "disk
full"` instead of re-raising. -/
theorem C7_counterexample :
    build_sovereign_document v0 (failFirstWrite "disk full") 0 "t" =
      BuildResult.errorDict "disk full" ∧
    (build_sovereign_document v0 (failFirstWrite "disk full") 0 "t").isRaised
      = false :=
  ⟨build_failFirstWrite v0 0 "t" "disk full",
    build_sovereign_document_never_raised v0 _ 0 "t"⟩

/-- Claim C7 (amended): I/O failures from archive writing never
propagate: the build's top-level exception handler converts any failing
write into an error-dictionary return value (here shown for a writer
failing on the first entry, with the exception text preserved in the
dictionary), and no execution of the build raises to its caller. -/
theorem C7_amended (v : OLE_TemporalVortex) (t : ℕ) (s : String)
    (msg : String) :
    build_sovereign_document v (failFirstWrite msg) t s =
      BuildResult.errorDict msg ∧
    ∀ w : String → Option String,
      (build_sovereign_document v w t s).isRaised = false :=
  ⟨build_failFirstWrite v t s msg,
    fun w => build_sovereign_document_never_raised v w t s⟩

/-- Claim C10: at the run's constants (`alpha = 0.0302011`, layer 0,
base size 1024) the object size is 1024, the energy is exactly 1, and
the first synthesized payload byte — the byte the data loop appends at
position 0, which sits at offset 72 of the object buffer right after
the header — is `floor(255 * 1) XOR 0xAA = 0x55 = 85`. -/
theorem C10_layer0 (t : ℕ) (s : String) :
    (create_temporal_ole_object v0 0 t s).map (fun m => m.size) = some 1024 ∧
    (create_temporal_ole_object v0 0 t s).map (fun m => m.energy_level) =
      some 1 ∧
    (create_temporal_ole_object v0 0 t s).map (fun m => m.data.getD 72 0) =
      some 0x55 := by
  rw [create_temporal_ole_object_eq v0 0 t s (header_v0_eq 0 (by norm_num))]
  refine ⟨?_, ?_, ?_⟩
  · simp only [Option.map_some']
    exact congrArg some v0_size0
  · simp only [Option.map_some']
    refine congrArg some ?_
    rw [show -v0.alpha * ((0 : ℕ) : ℝ) = 0 from by norm_num, Real.exp_zero]
  · simp only [Option.map_some']
    refine congrArg some ?_
    show (appendLoop (vortex_data_byte v0.alpha 0) (headerBytes v0 0) 0
      (pyInt ((1024 : ℝ) * Real.exp (-v0.alpha * ((0 : ℕ) : ℝ)))).toNat).getD
        72 0 = 85
    rw [v0_size0]
    exact v0_data0_72

/-- Claim C8: the byte pipeline is clock-independent.  Two executions of
`create_temporal_ole_object` with the same `(layer, alpha)` but
different wall-clock readings produce identical object bytes (`data`
holds the header bytes followed by the synthesized payload bytes),
identical digest input, size, name, and energy; the clock reaches only
the `temporal_offset` (and timestamp-string) metadata. -/
theorem C8_clock_independent (v : OLE_TemporalVortex) (layer : ℕ)
    (t1 t2 : ℕ) (s1 s2 : String) :
    (create_temporal_ole_object v layer t1 s1).map (fun m => m.data) =
      (create_temporal_ole_object v layer t2 s2).map (fun m => m.data) ∧
    (create_temporal_ole_object v layer t1 s1).map
        (fun m => m.checksum_source) =
      (create_temporal_ole_object v layer t2 s2).map
        (fun m => m.checksum_source) ∧
    (create_temporal_ole_object v layer t1 s1).map (fun m => m.size) =
      (create_temporal_ole_object v layer t2 s2).map (fun m => m.size) ∧
    (create_temporal_ole_object v layer t1 s1).map (fun m => m.progid) =
      (create_temporal_ole_object v layer t2 s2).map (fun m => m.progid) ∧
    (create_temporal_ole_object v layer t1 s1).map (fun m => m.energy_level) =
      (create_temporal_ole_object v layer t2 s2).map
        (fun m => m.energy_level) := by
  unfold create_temporal_ole_object
  cases generate_vortex_ole_header v layer with
  | none => exact ⟨rfl, rfl, rfl, rfl, rfl⟩
  | some hdr => exact ⟨rfl, rfl, rfl, rfl, rfl⟩

/-- Claim C9: the byte count of layer i is
`floor(1024 * exp(-alpha * i))` (a natural number, hence non-negative),
it is non-increasing in i, and at the run's `alpha = 0.0302011` and
`i = 5` it equals 880. -/
theorem C9_byte_count (t : ℕ) (s : String) :
    (∀ i : ℕ, (i : ℤ) < 4294967296 →
      (create_temporal_ole_object v0 i t s).map (fun m => m.size) =
        some (⌊(1024 : ℝ) * Real.exp (-v0.alpha * (i : ℝ))⌋).toNat) ∧
    (∀ i j : ℕ, i ≤ j →
      (⌊(1024 : ℝ) * Real.exp (-v0.alpha * (j : ℝ))⌋).toNat ≤
        (⌊(1024 : ℝ) * Real.exp (-v0.alpha * (i : ℝ))⌋).toNat) ∧
    (create_temporal_ole_object v0 5 t s).map (fun m => m.size) =
      some 880 := by
  refine ⟨?_, ?_, ?_⟩
  · intro i hi
    rw [create_temporal_ole_object_eq v0 i t s (header_v0_eq i hi)]
    simp only [Option.map_some']
    refine congrArg some ?_
    rw [pyInt_of_nonneg (by positivity)]
  · intro i j hij
    have hcast : (i : ℝ) ≤ (j : ℝ) := Nat.cast_le.mpr hij
    have hm : -v0.alpha * (j : ℝ) ≤ -v0.alpha * (i : ℝ) := by
      rw [v0_alpha]
      nlinarith
    have hexp := Real.exp_le_exp.mpr hm
    exact Int.toNat_le_toNat (Int.floor_le_floor (by nlinarith))
  · rw [create_temporal_ole_object_eq v0 5 t s (header_v0_eq 5 (by norm_num))]
    simp only [Option.map_some']
    exact congrArg some v0_size5

/-- Witness for C9 at concrete indices: the hypotheses `(5 : ℤ) < 2^32`
and `2 ≤ 3` hold, and the theorem yields the size formula at layer 5 and
monotonicity between layers 2 and 3. -/
theorem C9_byte_count_witness :
    ((5 : ℕ) : ℤ) < 4294967296 ∧ (2 : ℕ) ≤ 3 ∧
    (create_temporal_ole_object v0 5 0 "t").map (fun m => m.size) =
      some (⌊(1024 : ℝ) * Real.exp (-v0.alpha * ((5 : ℕ) : ℝ))⌋).toNat ∧
    (⌊(1024 : ℝ) * Real.exp (-v0.alpha * ((3 : ℕ) : ℝ))⌋).toNat ≤
      (⌊(1024 : ℝ) * Real.exp (-v0.alpha * ((2 : ℕ) : ℝ))⌋).toNat :=
  ⟨by norm_num, by norm_num, (C9_byte_count 0 "t").1 5 (by norm_num),
    (C9_byte_count 0 "t").2.1 2 3 (by norm_num)⟩

theorem appendLoop_take_header (v : OLE_TemporalVortex) (l : ℕ)
    (F : List ℕ → ℕ → ℕ) (n : ℕ) :
    (appendLoop F (headerBytes v l) 0 n).take 72 = headerBytes v l := by
  obtain ⟨rest, hrest⟩ := appendLoop_pref F n (headerBytes v l) 0
  rw [← hrest,
    show (72 : ℕ) = (headerBytes v l).length from (headerBytes_length v l).symm,
    List.take_left]

theorem appendLoop_drop_header_length (v : OLE_TemporalVortex) (l : ℕ)
    (F : List ℕ → ℕ → ℕ) (n : ℕ) :
    ((appendLoop F (headerBytes v l) 0 n).drop 72).length = n := by
  rw [List.length_drop, appendLoop_length, headerBytes_length]
  omega

/-- Claim C1 counterexample: at layer 0, output position p = 1, the code
produces byte 123, because its XOR feedback reads `ole_data[0]`, which
is the first HEADER byte 0xD0 (the buffer holds the 72-byte header
before any synthesized byte).  The claimed recurrence — XOR with the
preceding synthesized output byte `output[0]` — yields 254 instead
(`spec_synthesize` is the spec's section 4.2 recurrence, which the claim
restates). -/
theorem C1_counterexample :
    (create_temporal_ole_object v0 0 0 "t").map (fun m => m.data.getD 73 0) =
      some 123 ∧
    (spec_synthesize 0 1024 v0.alpha).getD 1 0 = 254 ∧
    (123 : ℕ) ≠ 254 := by
  refine ⟨?_, spec_synthesize_getD_1, by norm_num⟩
  rw [create_v0_0_eq]
  simp only [Option.map_some']
  refine congrArg some ?_
  rw [m00_data_count]
  exact v0_data0_73

/-- Claim C1 (amended): for output position p with 0 < p < byte_count,
the byte at object-buffer offset 72 + p (output position p) is the raw
decayed value XORed with the byte at offset p - 1 OF THE FULL OBJECT
BUFFER — a header byte when p ≤ 72, and synthesized output byte p - 73
when p ≥ 73 — then masked by position parity; it is not XORed with
output byte p - 1. -/
theorem C1_amended (l : ℕ) (hl : (l : ℤ) < 4294967296) (t : ℕ) (s : String)
    (m : OleMetadata) (hm : create_temporal_ole_object v0 l t s = some m)
    (p : ℕ) (hp : 0 < p) (hps : p < m.size) :
    m.data.getD (72 + p) 0 =
      Nat.xor ((Nat.xor (m.data.getD (p - 1) 0)
        ((pyInt ((255 : ℝ) *
          Real.exp (-v0.alpha * ((l : ℝ) + (p : ℝ) / 100))) % 256).toNat))
          % 256)
        (if (l + p) % 2 = 0 then 0xAA else 0x55) := by
  rw [create_temporal_ole_object_eq v0 l t s (header_v0_eq l hl)] at hm
  have hrec := Option.some.inj hm
  subst hrec
  have hps' : p < (pyInt ((1024 : ℝ) *
      Real.exp (-v0.alpha * (l : ℝ)))).toNat := hps
  show (appendLoop (vortex_data_byte v0.alpha l) (headerBytes v0 l) 0
    (pyInt ((1024 : ℝ) * Real.exp (-v0.alpha * (l : ℝ)))).toNat).getD
      (72 + p) 0 = _
  rw [show (72 : ℕ) + p = (headerBytes v0 l).length + p from by
    rw [headerBytes_length]]
  rw [appendLoop_getD (vortex_data_byte v0.alpha l) p _ (headerBytes v0 l) 0
    hps']
  have hpre : appendLoop (vortex_data_byte v0.alpha l) (headerBytes v0 l) 0 p
      <+: appendLoop (vortex_data_byte v0.alpha l) (headerBytes v0 l) 0
        (pyInt ((1024 : ℝ) * Real.exp (-v0.alpha * (l : ℝ)))).toNat := by
    rw [show (pyInt ((1024 : ℝ) * Real.exp (-v0.alpha * (l : ℝ)))).toNat =
      p + ((pyInt ((1024 : ℝ) * Real.exp (-v0.alpha * (l : ℝ)))).toNat - p)
      from by omega, appendLoop_add]
    exact appendLoop_pref _ _ _ _
  have hlen : p - 1 <
      (appendLoop (vortex_data_byte v0.alpha l) (headerBytes v0 l) 0
        p).length := by
    rw [appendLoop_length, headerBytes_length]
    omega
  simp only [vortex_data_byte, zero_add, if_pos hp]
  rw [getD_of_pref hpre hlen]

/-- Witness for the amended C1 at layer 0, position p = 1, on the
concretely constructed layer object `m00`. -/
theorem C1_amended_witness :
    (0 : ℕ) < 1 ∧ 1 < m00.size ∧
    m00.data.getD (72 + 1) 0 =
      Nat.xor ((Nat.xor (m00.data.getD (1 - 1) 0)
        ((pyInt ((255 : ℝ) *
          Real.exp (-v0.alpha * (((0 : ℕ) : ℝ) + ((1 : ℕ) : ℝ) / 100)))
          % 256).toNat)) % 256)
        (if ((0 : ℕ) + 1) % 2 = 0 then 0xAA else 0x55) := by
  refine ⟨by norm_num, ?_, ?_⟩
  · rw [m00_size]
    norm_num
  · exact C1_amended 0 (by norm_num) 0 "t" m00 create_v0_0_eq 1 (by norm_num)
      (by rw [m00_size]; norm_num)

/-- Claim C4 counterexample: at layer 0 the byte string handed to
`hashlib.sha256` has length 1096 = 72 + 1024 — the header bytes ARE
included — while the synthesized payload has length `byte_count = 1024`;
the digest is therefore not a hash of the payload bytes only. -/
theorem C4_counterexample :
    (create_temporal_ole_object v0 0 0 "t").map
      (fun m => m.checksum_source.length) = some 1096 ∧
    (create_temporal_ole_object v0 0 0 "t").map (fun m => m.size) =
      some 1024 ∧
    (1096 : ℕ) ≠ 1024 := by
  refine ⟨?_, ?_, by norm_num⟩
  · rw [create_v0_0_eq]
    simp only [Option.map_some']
    refine congrArg some ?_
    show m00.data.length = 1096
    exact m00_data_length
  · rw [create_v0_0_eq]
    simp only [Option.map_some']
    exact congrArg some m00_size

/-- Claim C4 (amended): the digest input of every layer object is the
full object buffer — the 72-byte header followed by the `byte_count`
synthesized bytes (it equals the `data` field byte for byte); when
`byte_count = 0` the digest input is the 72-byte header, not the empty
byte sequence. -/
theorem C4_amended (l : ℕ) (hl : (l : ℤ) < 4294967296) (t : ℕ) (s : String)
    (m : OleMetadata) (hm : create_temporal_ole_object v0 l t s = some m) :
    m.checksum_source = m.data ∧
    m.checksum_source =
      appendLoop (vortex_data_byte v0.alpha l) (headerBytes v0 l) 0 m.size ∧
    m.checksum_source.take 72 = headerBytes v0 l ∧
    m.checksum_source.length = 72 + m.size ∧
    (m.size = 0 → m.checksum_source = headerBytes v0 l ∧
      m.checksum_source ≠ []) := by
  rw [create_temporal_ole_object_eq v0 l t s (header_v0_eq l hl)] at hm
  have hrec := Option.some.inj hm
  subst hrec
  refine ⟨rfl, rfl, appendLoop_take_header v0 l _ _, ?_, ?_⟩
  · show (appendLoop (vortex_data_byte v0.alpha l) (headerBytes v0 l) 0
      (pyInt ((1024 : ℝ) * Real.exp (-v0.alpha * (l : ℝ)))).toNat).length = _
    rw [appendLoop_length, headerBytes_length]
  · intro h0
    have h0' : (pyInt ((1024 : ℝ) *
        Real.exp (-v0.alpha * (l : ℝ)))).toNat = 0 := h0
    constructor
    · show appendLoop (vortex_data_byte v0.alpha l) (headerBytes v0 l) 0
        (pyInt ((1024 : ℝ) * Real.exp (-v0.alpha * (l : ℝ)))).toNat = _
      rw [h0']
      rfl
    · intro he
      have h72 := headerBytes_length v0 l
      have : (appendLoop (vortex_data_byte v0.alpha l) (headerBytes v0 l) 0
          (pyInt ((1024 : ℝ) * Real.exp (-v0.alpha * (l : ℝ)))).toNat).length
          = 0 := by
        rw [show appendLoop (vortex_data_byte v0.alpha l) (headerBytes v0 l) 0
          (pyInt ((1024 : ℝ) * Real.exp (-v0.alpha * (l : ℝ)))).toNat =
          ([] : List ℕ) from he]
        rfl
      rw [appendLoop_length, headerBytes_length] at this
      omega

/-- Witness for the amended C4 at layer 0 on the concretely constructed
layer object `m00`. -/
theorem C4_amended_witness :
    ((0 : ℕ) : ℤ) < 4294967296 ∧
    m00.checksum_source = m00.data ∧
    m00.checksum_source =
      appendLoop (vortex_data_byte v0.alpha 0) (headerBytes v0 0) 0
        m00.size ∧
    m00.checksum_source.take 72 = headerBytes v0 0 ∧
    m00.checksum_source.length = 72 + m00.size ∧
    (m00.size = 0 → m00.checksum_source = headerBytes v0 0 ∧
      m00.checksum_source ≠ []) := by
  have h := C4_amended 0 (by norm_num) 0 "t" m00 create_v0_0_eq
  exact ⟨by norm_num, h.1, h.2.1, h.2.2.1, h.2.2.2.1, h.2.2.2.2⟩

theorem build_v0_bin_entry (t : ℕ) (s : String) (l : ℕ) (hl : l < 33)
    (m : OleMetadata)
    (hm : create_temporal_ole_object v0 l t s = some m) :
    ∃ meta archive,
      build_sovereign_document v0 noFail t s =
        BuildResult.completed meta archive ∧
      archive[5 + 2 * l]? =
        some ("word/embeddings/oleObject" ++ toString l ++ ".bin",
          EntryContent.binary m.data) := by
  have hAll : ∀ x ∈ List.range v0.layers,
      (create_temporal_ole_object v0 x t s).isSome := by
    intro x hx
    rw [v0_layers, List.mem_range] at hx
    exact create_v0_isSome x (by omega) t s
  have hAll' : ∀ x ∈ List.range' 0 33,
      (create_temporal_ole_object v0 x t s).isSome := by
    intro x hx
    rw [← List.range_eq_range'] at hx
    exact create_v0_isSome x (by rw [List.mem_range] at hx; omega) t s
  refine ⟨_, _, build_sovereign_document_noFail v0 t s hAll, ?_⟩
  rw [List.append_assoc,
    List.getElem?_append_right (by norm_num [fixedPreamble]; omega),
    show 5 + 2 * l - fixedPreamble.length = 2 * l + 1 from by
      norm_num [fixedPreamble]; omega,
    show List.range v0.layers = List.range' 0 33 from by
      rw [v0_layers, List.range_eq_range'],
    List.getElem?_append,
    if_pos (by
      rw [flatMap_layerEntries_length v0 t s 33 0 hAll']
      omega),
    flatMap_layerEntries_getElem v0 t s 33 l 0 hAll' hl]
  simp [layerEntries, hm]

/-- Claim C5 counterexample: the binary entry
`word/embeddings/oleObject0.bin` written into the archive for layer 0
holds 1096 bytes — the 72-byte header followed by the 1024 synthesized
bytes — while the synthesize output for layer 0 is 1024 bytes; reading
the entry back therefore does NOT recover the synthesize output: the
header is part of the emitted binary part. -/
theorem C5_counterexample :
    (∃ meta archive,
      build_sovereign_document v0 noFail 0 "t" =
        BuildResult.completed meta archive ∧
      archive[5]? =
        some ("word/embeddings/oleObject" ++ toString (0 : ℕ) ++ ".bin",
          EntryContent.binary m00.data)) ∧
    m00.data.length = 1096 ∧
    (spec_synthesize 0 1024 v0.alpha).length = 1024 ∧
    (1096 : ℕ) ≠ 1024 := by
  refine ⟨?_, m00_data_length, spec_synthesize_length 0 1024 v0.alpha,
    by norm_num⟩
  obtain ⟨meta, archive, hb, he⟩ :=
    build_v0_bin_entry 0 "t" 0 (by norm_num) m00 create_v0_0_eq
  exact ⟨meta, archive, hb, he⟩

/-- Claim C5 (amended): for every layer index l < 33 the build writes a
binary entry `word/embeddings/oleObject{l}.bin` whose content is the
layer's full object buffer `data` — the 72-byte header followed by the
`byte_count` synthesized bytes — so the header region is part of the
emitted binary part; the synthesize output is recovered from the entry
by dropping its 72-byte header prefix, not by reading the entry whole. -/
theorem C5_amended (t : ℕ) (s : String) (l : ℕ) (hl : l < 33) :
    ∃ meta archive m,
      build_sovereign_document v0 noFail t s =
        BuildResult.completed meta archive ∧
      create_temporal_ole_object v0 l t s = some m ∧
      archive[5 + 2 * l]? =
        some ("word/embeddings/oleObject" ++ toString l ++ ".bin",
          EntryContent.binary m.data) ∧
      m.data =
        appendLoop (vortex_data_byte v0.alpha l) (headerBytes v0 l) 0
          m.size ∧
      m.data.take 72 = headerBytes v0 l ∧
      (m.data.drop 72).length = m.size := by
  have hm := create_temporal_ole_object_eq v0 l t s (header_v0_eq l (by omega))
  obtain ⟨meta, archive, hb, he⟩ := build_v0_bin_entry t s l hl _ hm
  exact ⟨meta, archive, _, hb, hm, he, rfl,
    appendLoop_take_header v0 l _ _, appendLoop_drop_header_length v0 l _ _⟩

/-- Witness for the amended C5 at layer 0: the hypothesis 0 < 33 holds,
and the theorem gives the entry and its decomposition there. -/
theorem C5_amended_witness :
    (0 : ℕ) < 33 ∧
    (∃ meta archive m,
      build_sovereign_document v0 noFail 0 "t" =
        BuildResult.completed meta archive ∧
      create_temporal_ole_object v0 0 0 "t" = some m ∧
      archive[5 + 2 * 0]? =
        some ("word/embeddings/oleObject" ++ toString (0 : ℕ) ++ ".bin",
          EntryContent.binary m.data) ∧
      m.data =
        appendLoop (vortex_data_byte v0.alpha 0) (headerBytes v0 0) 0
          m.size ∧
      m.data.take 72 = headerBytes v0 0 ∧
      (m.data.drop 72).length = m.size) :=
  ⟨by norm_num, C5_amended 0 "t" 0 (by norm_num)⟩
